import Mathlib

/-!
# Sekolah Absenku — verification of the natural-language spec against the handlers

Shallow embedding of the TypeScript backend handlers of the "Sekolah Absenku"
attendance application (files `src/server/src/handlers/*.ts` and the siswa
handler file).  Database tables are lists of rows, timestamps are naturals
(milliseconds since an epoch, with day boundaries every `msPerDay`
milliseconds, matching `setHours(0,0,0,0)` in a fixed timezone), and each
handler is a pure function threading the database state explicitly, returning
`Except String` results: `.error msg` models a thrown `Error(msg)`.
-/

namespace Absenku

/-! ## Password hashing (user.ts `hashPassword`, auth handler `login`)

`user.ts` stores `hashPassword(password) = "<salt-hex>:<pbkdf2-hex>"` where
the salt is `randomBytes(32).toString('hex')` (64 lowercase hex characters)
and the pbkdf2 output is 128 lowercase hex characters.  The `login` handler
computes `createHash('sha256').update(password).digest('hex')` (64 lowercase
hex characters) and compares with
`timingSafeEqual(Buffer.from(stored, 'hex'), Buffer.from(digest, 'hex'))`.

Node's `Buffer.from(s, 'hex')` decodes two characters at a time and stops at
the first pair that is not two hexadecimal digits (it truncates, it does not
throw).  Hence the stored `salt:hash` string decodes to exactly the 32 salt
bytes — the `:` stops the decoder — which has the same byte length as the
32-byte sha-256 digest, so `timingSafeEqual` does not throw and compares the
salt bytes against the digest bytes.

The randomness of the salt and the pbkdf2/sha256 digests are inputs of the
model: `hashPassword` takes the salt and the pbkdf2 output as hex strings,
and the login check takes the stored string and the sha-256 hex digest of
the submitted password. -/

/-- Value of one hexadecimal digit, as `Buffer.from(_, 'hex')` reads it
(both cases accepted); `none` for a non-hex character. -/
def hexVal (c : Char) : Option Nat :=
  if '0' ≤ c ∧ c ≤ '9' then some (c.toNat - '0'.toNat)
  else if 'a' ≤ c ∧ c ≤ 'f' then some (c.toNat - 'a'.toNat + 10)
  else if 'A' ≤ c ∧ c ≤ 'F' then some (c.toNat - 'A'.toNat + 10)
  else none

/-- Node `Buffer.from(s, 'hex')`: decode hex pairs from the front, stopping
at the first pair that is not two hex digits (a trailing odd character is
dropped).  Returns the byte values. -/
def bufferFromHex : List Char → List Nat
  | c1 :: c2 :: rest =>
    match hexVal c1, hexVal c2 with
    | some v1, some v2 => (16 * v1 + v2) :: bufferFromHex rest
    | _, _ => []
  | _ => []

/-- Node `crypto.timingSafeEqual(a, b)`: throws a `RangeError` when the byte
lengths differ, otherwise returns whether the buffers are equal. -/
def timingSafeEqual (a b : List Nat) : Except String Bool :=
  if a.length = b.length then .ok (decide (a = b))
  else .error "RangeError: Input buffers must have the same byte length"

/-- `user.ts` `hashPassword`, with the random salt and the
`pbkdf2Sync(password, salt, 10000, 64, 'sha512').toString('hex')` output as
explicit hex-string inputs: the stored string is `salt ++ ":" ++ hash`. -/
def hashPassword (saltHex pbkdf2Hex : String) : String :=
  saltHex ++ ":" ++ pbkdf2Hex

/-- The password comparison performed by `login` in the auth handler:
`timingSafeEqual(Buffer.from(stored, 'hex'), Buffer.from(sha256Hex, 'hex'))`
where `sha256Hex` is the sha-256 hex digest of the submitted password.
`.ok true` means the password is accepted. -/
def loginPasswordCheck (stored sha256Hex : String) : Except String Bool :=
  timingSafeEqual (bufferFromHex stored.data) (bufferFromHex sha256Hex.data)

/-- A lowercase hexadecimal digit, as produced by `Buffer.toString('hex')`
and `Hash.digest('hex')`. -/
def isLowerHexChar (c : Char) : Bool :=
  c == '0' || c == '1' || c == '2' || c == '3' || c == '4' || c == '5' ||
  c == '6' || c == '7' || c == '8' || c == '9' || c == 'a' || c == 'b' ||
  c == 'c' || c == 'd' || c == 'e' || c == 'f'

/-- A string of `n` lowercase hex characters (the format of
`randomBytes(n/2).toString('hex')` and of a sha-256 / pbkdf2 hex digest). -/
def IsLowerHex (s : String) (n : Nat) : Prop :=
  s.data.length = n ∧ ∀ c ∈ s.data, isLowerHexChar c = true

instance (s : String) (n : Nat) : Decidable (IsLowerHex s n) := by
  unfold IsLowerHex; infer_instance

lemma isLowerHexChar_cases {c : Char} (h : isLowerHexChar c = true) :
    c = '0' ∨ c = '1' ∨ c = '2' ∨ c = '3' ∨ c = '4' ∨ c = '5' ∨ c = '6' ∨
    c = '7' ∨ c = '8' ∨ c = '9' ∨ c = 'a' ∨ c = 'b' ∨ c = 'c' ∨ c = 'd' ∨
    c = 'e' ∨ c = 'f' := by
  simpa [isLowerHexChar, or_assoc] using h

lemma hexVal_isSome_of_lower {c : Char} (h : isLowerHexChar c = true) :
    ∃ v, hexVal c = some v ∧ v < 16 := by
  rcases isLowerHexChar_cases h with
    rfl | rfl | rfl | rfl | rfl | rfl | rfl | rfl | rfl | rfl | rfl | rfl |
    rfl | rfl | rfl | rfl <;>
  exact ⟨_, rfl, by decide⟩

lemma hexVal_inj_lower {c c' : Char} (h : isLowerHexChar c = true)
    (h' : isLowerHexChar c' = true) (heq : hexVal c = hexVal c') : c = c' := by
  rcases isLowerHexChar_cases h with
    rfl | rfl | rfl | rfl | rfl | rfl | rfl | rfl | rfl | rfl | rfl | rfl |
    rfl | rfl | rfl | rfl <;>
  rcases isLowerHexChar_cases h' with
    rfl | rfl | rfl | rfl | rfl | rfl | rfl | rfl | rfl | rfl | rfl | rfl |
    rfl | rfl | rfl | rfl <;>
  first
    | rfl
    | exact absurd heq (by decide)

lemma bufferFromHex_colon (r : List Char) : bufferFromHex (':' :: r) = [] := by
  cases r <;> simp [bufferFromHex, hexVal]

theorem bufferFromHex_append_colon :
    ∀ (l r : List Char), (∀ c ∈ l, isLowerHexChar c = true) →
      l.length % 2 = 0 → bufferFromHex (l ++ ':' :: r) = bufferFromHex l
  | [], r, _, _ => by simpa using bufferFromHex_colon r
  | [c], _, _, hpar => by simp at hpar
  | c1 :: c2 :: rest, r, h, hpar => by
    obtain ⟨v1, hv1, _⟩ := hexVal_isSome_of_lower (h c1 (by simp))
    obtain ⟨v2, hv2, _⟩ := hexVal_isSome_of_lower (h c2 (by simp))
    have hrest : rest.length % 2 = 0 := by
      simp [List.length_cons] at hpar; omega
    have ih := bufferFromHex_append_colon rest r
      (fun c hc => h c (by simp [hc])) hrest
    simp [bufferFromHex, hv1, hv2, ih]

theorem bufferFromHex_length :
    ∀ (l : List Char), (∀ c ∈ l, isLowerHexChar c = true) →
      l.length % 2 = 0 → (bufferFromHex l).length = l.length / 2
  | [], _, _ => rfl
  | [c], _, hpar => by simp at hpar
  | c1 :: c2 :: rest, h, hpar => by
    obtain ⟨v1, hv1, _⟩ := hexVal_isSome_of_lower (h c1 (by simp))
    obtain ⟨v2, hv2, _⟩ := hexVal_isSome_of_lower (h c2 (by simp))
    have hrest : rest.length % 2 = 0 := by
      simp [List.length_cons] at hpar; omega
    have ih := bufferFromHex_length rest (fun c hc => h c (by simp [hc])) hrest
    simp [bufferFromHex, hv1, hv2, ih, List.length_cons]
    omega

theorem bufferFromHex_inj :
    ∀ (l1 l2 : List Char), (∀ c ∈ l1, isLowerHexChar c = true) →
      (∀ c ∈ l2, isLowerHexChar c = true) → l1.length = l2.length →
      l1.length % 2 = 0 → bufferFromHex l1 = bufferFromHex l2 → l1 = l2
  | [], [], _, _, _, _, _ => rfl
  | [], _ :: _, _, _, hlen, _, _ => by simp at hlen
  | _ :: _, [], _, _, hlen, _, _ => by simp at hlen
  | [_], [_], _, _, _, hpar, _ => by simp at hpar
  | [_], _ :: _ :: _, _, _, hlen, _, _ => by simp at hlen
  | _ :: _ :: _, [_], _, _, hlen, _, _ => by
    simp [List.length_cons] at hlen
  | a1 :: b1 :: t1, a2 :: b2 :: t2, h1, h2, hlen, hpar, heq => by
    obtain ⟨v1, hv1, hv1lt⟩ := hexVal_isSome_of_lower (h1 a1 (by simp))
    obtain ⟨w1, hw1, hw1lt⟩ := hexVal_isSome_of_lower (h1 b1 (by simp))
    obtain ⟨v2, hv2, hv2lt⟩ := hexVal_isSome_of_lower (h2 a2 (by simp))
    obtain ⟨w2, hw2, hw2lt⟩ := hexVal_isSome_of_lower (h2 b2 (by simp))
    simp [bufferFromHex, hv1, hw1, hv2, hw2] at heq
    obtain ⟨hhead, htail⟩ := heq
    have hv : v1 = v2 ∧ w1 = w2 := by omega
    have ha : a1 = a2 :=
      hexVal_inj_lower (h1 a1 (by simp)) (h2 a2 (by simp))
        (by rw [hv1, hv2, hv.1])
    have hb : b1 = b2 :=
      hexVal_inj_lower (h1 b1 (by simp)) (h2 b2 (by simp))
        (by rw [hw1, hw2, hv.2])
    have hlent : t1.length = t2.length := by
      simp [List.length_cons] at hlen; omega
    have hpart : t1.length % 2 = 0 := by
      simp [List.length_cons] at hpar; omega
    have ht : t1 = t2 :=
      bufferFromHex_inj t1 t2 (fun c hc => h1 c (by simp [hc]))
        (fun c hc => h2 c (by simp [hc])) hlent hpart htail
    rw [ha, hb, ht]

/-- The sha-256 hex digest of the empty string (a concrete digest value that
`createHash('sha256')` actually produces, here for the password `""`). -/
def sha256EmptyHex : String :=
  "e3b0c44298fc1c149afbf4c8996fb92427ae41e4649b934ca495991b7852b855"

/-- A concrete 128-hex-character pbkdf2 output for the counterexample. -/
def pbkdf2Sample : String :=
  String.mk (List.replicate 64 'a' ++ List.replicate 64 'b')

/-- A concrete 64-hex-character salt distinct from `sha256EmptyHex`. -/
def saltSample : String := String.mk (List.replicate 64 '0')

lemma hashPassword_data (salt pbkdf2Hex : String) :
    (hashPassword salt pbkdf2Hex).data = salt.data ++ ':' :: pbkdf2Hex.data := by
  have hcolon : (":" : String).data = [':'] := rfl
  simp [hashPassword, hcolon]

lemma string_eq_of_data_eq {s t : String} (h : s.data = t.data) : s = t := by
  cases s; cases t; exact congrArg String.mk h

instance {ε α : Type} [DecidableEq ε] [DecidableEq α] :
    DecidableEq (Except ε α) := fun x y =>
  match x, y with
  | .ok a, .ok b =>
    if h : a = b then .isTrue (by rw [h])
    else .isFalse (fun hh => h (by injection hh))
  | .error a, .error b =>
    if h : a = b then .isTrue (by rw [h])
    else .isFalse (fun hh => h (by injection hh))
  | .ok _, .error _ => .isFalse (fun hh => Except.noConfusion hh)
  | .error _, .ok _ => .isFalse (fun hh => Except.noConfusion hh)

set_option maxRecDepth 8000

/-- C1 (counterexample): the claim "for every password, the hash stored by
`createUser` is never in the format that `login`'s verification accepts" is
false.  `Buffer.from(stored, 'hex')` stops decoding at the `:` in the stored
`salt:hash` string, so `login` compares only the 32 salt bytes against the
32-byte sha-256 digest of the submitted password; when `randomBytes`
produced a salt whose hex string equals that digest (here the digest of the
empty-string password), `login` accepts the `createUser`-stored hash. -/
theorem login_accepts_stored_hash_when_salt_equals_digest :
    IsLowerHex sha256EmptyHex 64 ∧ IsLowerHex pbkdf2Sample 128 ∧
    loginPasswordCheck (hashPassword sha256EmptyHex pbkdf2Sample) sha256EmptyHex
      = Except.ok true := by
  refine ⟨by decide, by decide, ?_⟩
  decide

/-- C1 (amended): `createUser` stores the PBKDF2-based `salt:hash` string
while `login` checks the stored value against the unsalted sha-256 hex digest
of the submitted password, decoding both with `Buffer.from(_, 'hex')` (which
stops at the `:`); whenever the salt hex string differs from that digest —
every case except the probability-negligible coincidence `salt = digest` —
`login` rejects the password. -/
theorem login_rejects_stored_hash_of_createUser
    (salt pbkdf2Hex sha256Hex : String) (hsalt : IsLowerHex salt 64)
    (hdig : IsLowerHex sha256Hex 64) (hne : salt ≠ sha256Hex) :
    loginPasswordCheck (hashPassword salt pbkdf2Hex) sha256Hex
      = Except.ok false := by
  obtain ⟨hslen, hschars⟩ := hsalt
  obtain ⟨hdlen, hdchars⟩ := hdig
  have hspar : salt.data.length % 2 = 0 := by rw [hslen]
  have hstored : bufferFromHex (hashPassword salt pbkdf2Hex).data
      = bufferFromHex salt.data := by
    rw [hashPassword_data]
    exact bufferFromHex_append_colon salt.data pbkdf2Hex.data hschars hspar
  have hlen1 : (bufferFromHex salt.data).length = 32 := by
    rw [bufferFromHex_length salt.data hschars hspar, hslen]
  have hlen2 : (bufferFromHex sha256Hex.data).length = 32 := by
    rw [bufferFromHex_length sha256Hex.data hdchars (by rw [hdlen]), hdlen]
  have hneq : bufferFromHex salt.data ≠ bufferFromHex sha256Hex.data := by
    intro h
    exact hne (string_eq_of_data_eq
      (bufferFromHex_inj salt.data sha256Hex.data hschars hdchars
        (by rw [hslen, hdlen]) hspar h))
  rw [loginPasswordCheck, hstored, timingSafeEqual, if_pos (by rw [hlen1, hlen2])]
  simp [hneq]

/-- Witness for C1's amended theorem at concrete salt, pbkdf2 output and
digest. -/
theorem login_rejects_stored_hash_of_createUser_witness :
    loginPasswordCheck (hashPassword saltSample pbkdf2Sample) sha256EmptyHex
      = Except.ok false :=
  login_rejects_stored_hash_of_createUser saltSample pbkdf2Sample sha256EmptyHex
    (by decide) (by decide) (by decide)

/-! ## Data model (`db/schema.ts`, `schema.ts`)

Tables are lists of rows; dates and timestamps are milliseconds since an
epoch (`Nat`), with day boundaries every `msPerDay` milliseconds:
`new Date(); d.setHours(0,0,0,0)` becomes `startOfDay`, and the HH:MM:SS
time strings stored in `waktu_masuk` / `waktu_pulang` are modelled as the
millisecond offset within the day.  Serial primary keys are modelled by a
`nextId` counter in the database state. -/

inductive Role
  | admin
  | guru
  | siswa
deriving DecidableEq

inductive AttendanceStatus
  | hadir
  | izin
  | sakit
  | alpha
deriving DecidableEq

inductive RequestStatus
  | pending
  | approved
  | rejected
deriving DecidableEq

/-- `jenis` of a pengajuan izin (`z.enum(['izin', 'sakit'])`). -/
inductive Jenis
  | izin
  | sakit
deriving DecidableEq

/-- The status values accepted by `reviewPengajuanIzinInputSchema`
(`z.enum(['approved', 'rejected'])`). -/
inductive ReviewStatus
  | approved
  | rejected
deriving DecidableEq

def msPerDay : Nat := 86400000

/-- `const today = new Date(); today.setHours(0, 0, 0, 0)`. -/
def startOfDay (now : Nat) : Nat := now - now % msPerDay

/-- `new Date().toTimeString().slice(0, 8)` — the time of day, modelled as
the millisecond offset within the day. -/
def toTimeOfDay (now : Nat) : Nat := now % msPerDay

structure UserRow where
  id : Nat
  username : Option String
  nip : Option String
  nisn : Option String
  password_hash : String
  role : Role
  created_at : Nat
  updated_at : Nat
deriving DecidableEq

structure SiswaRow where
  id : Nat
  user_id : Nat
  nisn : String
  nama : String
  kelas_id : Nat
  foto : Option String
  created_at : Nat
  updated_at : Nat
deriving DecidableEq

structure GuruRow where
  id : Nat
  user_id : Nat
  nip : String
  nama : String
  foto : Option String
  created_at : Nat
  updated_at : Nat
deriving DecidableEq

structure KelasRow where
  id : Nat
  nama_kelas : String
  wali_kelas_id : Nat
  created_at : Nat
  updated_at : Nat
deriving DecidableEq

structure AbsensiRow where
  id : Nat
  siswa_id : Nat
  guru_id : Option Nat
  kelas_id : Nat
  status : AttendanceStatus
  tanggal : Nat
  waktu_masuk : Option Nat
  waktu_pulang : Option Nat
  keterangan : Option String
  created_at : Nat
  updated_at : Nat
deriving DecidableEq

structure PengajuanRow where
  id : Nat
  siswa_id : Nat
  tanggal : Nat
  alasan : String
  status : RequestStatus
  jenis : Jenis
  reviewer_id : Option Nat
  reviewed_at : Option Nat
  created_at : Nat
  updated_at : Nat
deriving DecidableEq

/-- The database state: one list per table, plus the next fresh serial id. -/
structure DB where
  users : List UserRow
  siswa : List SiswaRow
  guru : List GuruRow
  kelas : List KelasRow
  absensi : List AbsensiRow
  pengajuan : List PengajuanRow
  nextId : Nat
deriving DecidableEq

/-! ### Handler inputs (`schema.ts` zod input schemas)

A zod `.optional()` field is an outer `Option` (absent = `none`); a
`.nullable()` field is an inner `Option` (`null` = `none`). -/

structure CreateSiswaInput where
  user_id : Nat
  nisn : String
  nama : String
  kelas_id : Nat
  foto : Option String
deriving DecidableEq

structure CreateGuruInput where
  user_id : Nat
  nip : String
  nama : String
  foto : Option String
deriving DecidableEq

structure CreateUserInput where
  username : Option String
  nip : Option String
  nisn : Option String
  password : String
  role : Role
deriving DecidableEq

structure CreateAbsensiInput where
  siswa_id : Nat
  guru_id : Option Nat
  kelas_id : Nat
  status : AttendanceStatus
  tanggal : Nat
  waktu_masuk : Option Nat
  waktu_pulang : Option Nat
  keterangan : Option String
deriving DecidableEq

structure UpdateAbsensiInput where
  id : Nat
  status : Option AttendanceStatus
  waktu_masuk : Option (Option Nat)
  waktu_pulang : Option (Option Nat)
  keterangan : Option (Option String)
deriving DecidableEq

structure ReviewPengajuanIzinInput where
  id : Nat
  status : ReviewStatus
  reviewer_id : Nat
deriving DecidableEq

/-! ## Handlers

Each handler takes the database, the current time `now`, and its input, and
returns `(result, database)`: `result = .error msg` models a thrown
`Error(msg)`, and the returned database reflects every write executed before
the throw (SQL statements that matched no row leave the state unchanged). -/

/-- `siswa handler` `createSiswa`: validates that the user exists with role
`siswa`, that the kelas exists, and that the NISN is unused, then inserts. -/
def createSiswa (db : DB) (now : Nat) (input : CreateSiswaInput) :
    Except String SiswaRow × DB :=
  let user := db.users.filter fun u => decide (u.id = input.user_id)
  match user.head? with
  | none => (.error "Invalid user_id or user is not a siswa", db)
  | some u =>
    if u.role = Role.siswa then
      let kelas := db.kelas.filter fun k => decide (k.id = input.kelas_id)
      if kelas.length = 0 then (.error "Kelas not found", db)
      else
        let existingSiswa := db.siswa.filter fun s => decide (s.nisn = input.nisn)
        if existingSiswa.length > 0 then (.error "NISN already exists", db)
        else
          let row : SiswaRow :=
            { id := db.nextId, user_id := input.user_id, nisn := input.nisn,
              nama := input.nama, kelas_id := input.kelas_id, foto := input.foto,
              created_at := now, updated_at := now }
          (.ok row, { db with siswa := db.siswa ++ [row], nextId := db.nextId + 1 })
    else (.error "Invalid user_id or user is not a siswa", db)

/-- `kelas handler` `deleteKelas`: refuses when a siswa is assigned to the
kelas; otherwise deletes, and reports `Kelas not found` when the delete
returned no row (the delete statement itself has already run by then). -/
def deleteKelas (db : DB) (id : Nat) : Except String Unit × DB :=
  let siswaCount := db.siswa.filter fun s => decide (s.kelas_id = id)
  if siswaCount.length > 0 then
    (.error "Cannot delete kelas with assigned students", db)
  else
    let deleted := db.kelas.filter fun k => decide (k.id = id)
    let remaining := db.kelas.filter fun k => !decide (k.id = id)
    let db1 := { db with kelas := remaining }
    if deleted.length = 0 then (.error "Kelas not found", db1)
    else (.ok (), db1)

/-- `guru.ts` `createGuru`: user exists, has role `guru`, no guru profile for
the user yet, NIP unused; then insert. -/
def createGuru (db : DB) (now : Nat) (input : CreateGuruInput) :
    Except String GuruRow × DB :=
  let user := db.users.filter fun u => decide (u.id = input.user_id)
  match user.head? with
  | none => (.error "User not found", db)
  | some u =>
    if u.role = Role.guru then
      let existingGuru := db.guru.filter fun g => decide (g.user_id = input.user_id)
      if existingGuru.length > 0 then
        (.error "Guru profile already exists for this user", db)
      else
        let existingNip := db.guru.filter fun g => decide (g.nip = input.nip)
        if existingNip.length > 0 then (.error "NIP already exists", db)
        else
          let row : GuruRow :=
            { id := db.nextId, user_id := input.user_id, nip := input.nip,
              nama := input.nama, foto := input.foto,
              created_at := now, updated_at := now }
          (.ok row, { db with guru := db.guru ++ [row], nextId := db.nextId + 1 })
    else (.error "User must have guru role", db)

/-- JS truthiness of a nullable string column (`null` and `''` are falsy). -/
def truthyStr : Option String → Bool
  | none => false
  | some s => decide (s ≠ "")

/-- `user.ts` `createUser`: hashes the password (salt and pbkdf2 output are
explicit inputs of the model), checks the role-specific identifier for
uniqueness (`or(...conditions)` holds the single condition matching the
input's role, when that identifier is non-null), and inserts. -/
def createUser (db : DB) (now : Nat) (input : CreateUserInput)
    (saltHex pbkdf2Hex : String) : Except String UserRow × DB :=
  let password_hash := hashPassword saltHex pbkdf2Hex
  let conflicts : List UserRow :=
    match input.role with
    | Role.admin =>
      match input.username with
      | some v => db.users.filter fun x => decide (x.username = some v)
      | none => []
    | Role.guru =>
      match input.nip with
      | some v => db.users.filter fun x => decide (x.nip = some v)
      | none => []
    | Role.siswa =>
      match input.nisn with
      | some v => db.users.filter fun x => decide (x.nisn = some v)
      | none => []
  match conflicts.head? with
  | some existing =>
    let identifier :=
      if truthyStr existing.username && decide (existing.username = input.username)
      then "Username"
      else if truthyStr existing.nip && decide (existing.nip = input.nip)
      then "NIP"
      else if truthyStr existing.nisn && decide (existing.nisn = input.nisn)
      then "NISN"
      else ""
    (.error (identifier ++ " already exists"), db)
  | none =>
    let row : UserRow :=
      { id := db.nextId, username := input.username, nip := input.nip,
        nisn := input.nisn, password_hash := password_hash, role := input.role,
        created_at := now, updated_at := now }
    (.ok row, { db with users := db.users ++ [row], nextId := db.nextId + 1 })

/-- `absensi.ts` `createAbsensi`: siswa exists, kelas exists, and — when
`input.guru_id` is truthy — the guru exists; then insert.  The guard is the
JS truthiness test `if (input.guru_id)`, so both `null` and `0` skip the
guru-existence check (`0` is falsy in JS). -/
def createAbsensi (db : DB) (now : Nat) (input : CreateAbsensiInput) :
    Except String AbsensiRow × DB :=
  let doInsert : Unit → Except String AbsensiRow × DB := fun _ =>
    let row : AbsensiRow :=
      { id := db.nextId, siswa_id := input.siswa_id, guru_id := input.guru_id,
        kelas_id := input.kelas_id, status := input.status,
        tanggal := input.tanggal, waktu_masuk := input.waktu_masuk,
        waktu_pulang := input.waktu_pulang, keterangan := input.keterangan,
        created_at := now, updated_at := now }
    (.ok row, { db with absensi := db.absensi ++ [row], nextId := db.nextId + 1 })
  if (db.siswa.filter fun s => decide (s.id = input.siswa_id)).length = 0 then
    (.error "Siswa not found", db)
  else if (db.kelas.filter fun k => decide (k.id = input.kelas_id)).length = 0 then
    (.error "Kelas not found", db)
  else
    match input.guru_id with
    | some g =>
      if g = 0 then doInsert ()
      else if (db.guru.filter fun r => decide (r.id = g)).length = 0 then
        (.error "Guru not found", db)
      else doInsert ()
    | none => doInsert ()

/-- `absensi.ts` `updateAbsensi` field application: `updateData` holds
`updated_at` plus exactly the input fields that are not `undefined`. -/
def applyUpdateAbsensi (now : Nat) (input : UpdateAbsensiInput)
    (r : AbsensiRow) : AbsensiRow :=
  let r1 := { r with updated_at := now }
  let r2 := match input.status with
    | some s => { r1 with status := s }
    | none => r1
  let r3 := match input.waktu_masuk with
    | some w => { r2 with waktu_masuk := w }
    | none => r2
  let r4 := match input.waktu_pulang with
    | some w => { r3 with waktu_pulang := w }
    | none => r3
  match input.keterangan with
  | some k => { r4 with keterangan := k }
  | none => r4

/-- `absensi.ts` `updateAbsensi`: checks the row exists, then updates the
rows whose `id` matches, setting only the provided fields plus
`updated_at`. -/
def updateAbsensi (db : DB) (now : Nat) (input : UpdateAbsensiInput) :
    Except String AbsensiRow × DB :=
  match (db.absensi.filter fun r => decide (r.id = input.id)).head? with
  | none => (.error "Absensi not found", db)
  | some existing =>
    let upd := fun (r : AbsensiRow) =>
      if r.id = input.id then applyUpdateAbsensi now input r else r
    (.ok (applyUpdateAbsensi now input existing),
     { db with absensi := db.absensi.map upd })

/-- `absensi.ts` `absenMasuk`: looks the siswa up, then looks for an absensi
row of that siswa with `tanggal` in `[today, tomorrow]` (both midnights
inclusive); updates the first such row with the check-in time and status
`hadir`, or inserts a fresh `hadir` row dated `now` when there is none. -/
def absenMasuk (db : DB) (now : Nat) (siswaId : Nat) :
    Except String AbsensiRow × DB :=
  match (db.siswa.filter fun s => decide (s.id = siswaId)).head? with
  | none => (.error "Siswa not found", db)
  | some siswaRow =>
    let today := startOfDay now
    let tomorrow := today + msPerDay
    let existing := db.absensi.filter fun r =>
      decide (r.siswa_id = siswaId ∧ today ≤ r.tanggal ∧ r.tanggal ≤ tomorrow)
    match existing.head? with
    | some first =>
      let upd := fun (r : AbsensiRow) =>
        if r.id = first.id then
          { r with waktu_masuk := some (toTimeOfDay now),
                   status := AttendanceStatus.hadir, updated_at := now }
        else r
      (.ok (upd first), { db with absensi := db.absensi.map upd })
    | none =>
      let row : AbsensiRow :=
        { id := db.nextId, siswa_id := siswaId, guru_id := none,
          kelas_id := siswaRow.kelas_id, status := AttendanceStatus.hadir,
          tanggal := now, waktu_masuk := some (toTimeOfDay now),
          waktu_pulang := none, keterangan := none,
          created_at := now, updated_at := now }
      (.ok row, { db with absensi := db.absensi ++ [row], nextId := db.nextId + 1 })

/-- Image of a `reviewPengajuanIzinInputSchema` status in the
`pengajuan_izin.status` enum. -/
def reqStatusOfReview : ReviewStatus → RequestStatus
  | ReviewStatus.approved => RequestStatus.approved
  | ReviewStatus.rejected => RequestStatus.rejected

/-- `pengajuan izin handler` `reviewPengajuanIzin`: reads the request joined
with its siswa (`INNER JOIN siswa`), updates the request's status / reviewer
metadata, and when approving inserts an absensi row (`sakit` requests give
status `sakit`, otherwise `izin`) dated with the request's `tanggal` and
annotated `Approved: <alasan>`. -/
def reviewPengajuanIzin (db : DB) (now : Nat) (input : ReviewPengajuanIzinInput) :
    Except String PengajuanRow × DB :=
  let joined := (db.pengajuan.filter fun p => decide (p.id = input.id)).filterMap
    fun p => (db.siswa.find? fun s => decide (s.id = p.siswa_id)).map
      fun s => (p, s)
  match joined.head? with
  | none => (.error "Pengajuan izin not found", db)
  | some (p, s) =>
    let upd := fun (q : PengajuanRow) =>
      if q.id = input.id then
        { q with status := reqStatusOfReview input.status,
                 reviewer_id := some input.reviewer_id,
                 reviewed_at := some now, updated_at := now }
      else q
    let db1 := { db with pengajuan := db.pengajuan.map upd }
    if input.status = ReviewStatus.approved then
      let absensiStatus :=
        if p.jenis = Jenis.sakit then AttendanceStatus.sakit
        else AttendanceStatus.izin
      let row : AbsensiRow :=
        { id := db1.nextId, siswa_id := p.siswa_id,
          guru_id := some input.reviewer_id, kelas_id := s.kelas_id,
          status := absensiStatus, tanggal := p.tanggal,
          waktu_masuk := none, waktu_pulang := none,
          keterangan := some ("Approved: " ++ p.alasan),
          created_at := now, updated_at := now }
      (.ok (upd p), { db1 with absensi := db1.absensi ++ [row],
                               nextId := db1.nextId + 1 })
    else (.ok (upd p), db1)

/-! ## Dashboard statistics (`dashboard.ts` `getDashboardStats`) -/

structure AttendanceCounts where
  hadir : Nat
  izin : Nat
  sakit : Nat
  alpha : Nat
deriving DecidableEq

structure DashboardStats where
  total_siswa : Nat
  total_guru : Nat
  total_kelas : Nat
  absensi_hari_ini : AttendanceCounts
  pengajuan_pending : Nat
deriving DecidableEq

def allStatuses : List AttendanceStatus :=
  [AttendanceStatus.hadir, AttendanceStatus.izin,
   AttendanceStatus.sakit, AttendanceStatus.alpha]

/-- The `GROUP BY status` + `count()` query result: one `(status, count)`
pair per status present among `rows`. -/
def groupByStatus (rows : List AbsensiRow) : List (AttendanceStatus × Nat) :=
  (allStatuses.filter fun s => rows.any fun r => decide (r.status = s)).map
    fun s => (s, (rows.filter fun r => decide (r.status = s)).length)

/-- The `absensiHariIni.forEach(item => attendanceStats[item.status] =
item.count)` loop over an all-zero record. -/
def applyStatusCounts (init : AttendanceCounts)
    (l : List (AttendanceStatus × Nat)) : AttendanceCounts :=
  l.foldl (fun acc pair =>
    match pair.1 with
    | AttendanceStatus.hadir => { acc with hadir := pair.2 }
    | AttendanceStatus.izin => { acc with izin := pair.2 }
    | AttendanceStatus.sakit => { acc with sakit := pair.2 }
    | AttendanceStatus.alpha => { acc with alpha := pair.2 }) init

/-- `dashboard.ts` `getDashboardStats`: table totals, today's attendance
grouped by status over `tanggal ∈ [today, tomorrow]` (both midnights
inclusive, per `gte`/`lte`), and `pengajuan_pending` — whose query is
commented out in the source ("temporarily disabled due to schema enum
issue") in favour of the hardcoded `{ count: 0 }`. -/
def getDashboardStats (db : DB) (now : Nat) : DashboardStats :=
  let today := startOfDay now
  let tomorrow := today + msPerDay
  let rows := db.absensi.filter fun r =>
    decide (today ≤ r.tanggal ∧ r.tanggal ≤ tomorrow)
  { total_siswa := db.siswa.length
    total_guru := db.guru.length
    total_kelas := db.kelas.length
    absensi_hari_ini := applyStatusCounts ⟨0, 0, 0, 0⟩ (groupByStatus rows)
    pengajuan_pending := 0 }

/-- The number of pengajuan-izin rows whose status is `pending` — what the
commented-out query of `getDashboardStats` would count. -/
def pendingCount (db : DB) : Nat :=
  (db.pengajuan.filter fun p => decide (p.status = RequestStatus.pending)).length

/-- Number of absensi rows with a given status whose `tanggal` falls on the
same calendar day as `now`. -/
def countStatusOnDay (db : DB) (now : Nat) (s : AttendanceStatus) : Nat :=
  (db.absensi.filter fun r =>
    decide (r.status = s ∧ r.tanggal / msPerDay = now / msPerDay)).length

/-- Number of absensi rows with a given status whose `tanggal` lies in the
window `[startOfDay now, startOfDay now + msPerDay]`, both endpoints
included — the window the handler actually queries. -/
def countStatusInWindow (db : DB) (now : Nat) (s : AttendanceStatus) : Nat :=
  (db.absensi.filter fun r =>
    decide (r.status = s ∧ startOfDay now ≤ r.tanggal ∧
      r.tanggal ≤ startOfDay now + msPerDay)).length

/-! ## Helper lemmas and concrete sample data -/

lemma head?_filter {α : Type} (p : α → Bool) :
    ∀ l : List α, (l.filter p).head? = l.find? p := by
  intro l
  induction l with
  | nil => rfl
  | cons a t ih =>
    by_cases h : p a <;> simp [List.filter_cons, List.find?_cons, h, ih]

def sampleUserSiswa : UserRow :=
  { id := 3, username := none, nip := none, nisn := some "0012345678",
    password_hash := "h", role := Role.siswa, created_at := 0, updated_at := 0 }

def sampleUserGuru : UserRow :=
  { id := 4, username := none, nip := some "198700112", nisn := none,
    password_hash := "h", role := Role.guru, created_at := 0, updated_at := 0 }

def sampleSiswa : SiswaRow :=
  { id := 1, user_id := 3, nisn := "0012345678", nama := "Budi",
    kelas_id := 2, foto := none, created_at := 0, updated_at := 0 }

def sampleGuru : GuruRow :=
  { id := 7, user_id := 4, nip := "198700112", nama := "Pak Guru",
    foto := none, created_at := 0, updated_at := 0 }

def sampleKelas : KelasRow :=
  { id := 2, nama_kelas := "X-1", wali_kelas_id := 7,
    created_at := 0, updated_at := 0 }

def samplePengajuan : PengajuanRow :=
  { id := 5, siswa_id := 1, tanggal := 100, alasan := "demam",
    status := RequestStatus.pending, jenis := Jenis.sakit,
    reviewer_id := none, reviewed_at := none, created_at := 0, updated_at := 0 }

def sampleDB : DB :=
  { users := [sampleUserSiswa, sampleUserGuru], siswa := [sampleSiswa],
    guru := [sampleGuru], kelas := [sampleKelas], absensi := [],
    pengajuan := [samplePengajuan], nextId := 10 }

def emptyDB : DB :=
  { users := [], siswa := [], guru := [], kelas := [], absensi := [],
    pengajuan := [], nextId := 1 }

/-! ## C7 — deleting a kelas with assigned students -/

/-- C7: for every kelas id referenced by at least one siswa row,
`deleteKelas` fails with `Cannot delete kelas with assigned students` and
leaves the database (in particular the kelas table) unchanged. -/
theorem deleteKelas_rejects_assigned_students (db : DB) (id : Nat)
    (h : ∃ s ∈ db.siswa, s.kelas_id = id) :
    (deleteKelas db id).1 = .error "Cannot delete kelas with assigned students" ∧
    (deleteKelas db id).2 = db := by
  obtain ⟨s, hs, hk⟩ := h
  have hmem : s ∈ db.siswa.filter fun r => decide (r.kelas_id = id) :=
    List.mem_filter.mpr ⟨hs, by simp [hk]⟩
  have hpos : 0 < (db.siswa.filter fun r => decide (r.kelas_id = id)).length :=
    List.length_pos.mpr (List.ne_nil_of_mem hmem)
  simp [deleteKelas, hpos]

/-- Witness for C7: `sampleDB` has a siswa assigned to kelas 2. -/
theorem deleteKelas_rejects_assigned_students_witness :
    (deleteKelas sampleDB 2).1 =
      .error "Cannot delete kelas with assigned students" ∧
    (deleteKelas sampleDB 2).2 = sampleDB :=
  deleteKelas_rejects_assigned_students sampleDB 2
    ⟨sampleSiswa, by decide, by decide⟩

/-! ## C5 — creating a siswa with a missing kelas -/

def inputBadKelas : CreateSiswaInput :=
  { user_id := 3, nisn := "9999999999", nama := "Cici", kelas_id := 99,
    foto := none }

def inputBadUserAndKelas : CreateSiswaInput :=
  { user_id := 1, nisn := "1", nama := "A", kelas_id := 2, foto := none }

/-- C5 (counterexample): on an input whose `kelas_id` matches no kelas row
but whose `user_id` also matches no user, `createSiswa` throws the earlier
check's error `Invalid user_id or user is not a siswa`, not `Kelas not
found`, so the claim's parenthesised error message does not hold for every
such input. -/
theorem createSiswa_missing_kelas_message_counterexample :
    (∀ k ∈ emptyDB.kelas, k.id ≠ inputBadUserAndKelas.kelas_id) ∧
    (createSiswa emptyDB 0 inputBadUserAndKelas).1 =
      .error "Invalid user_id or user is not a siswa" ∧
    (createSiswa emptyDB 0 inputBadUserAndKelas).1 ≠
      .error "Kelas not found" := by
  refine ⟨by decide, by decide, by decide⟩

/-- C5 (amended): for every input whose `kelas_id` matches no kelas row,
`createSiswa` throws an error and inserts no siswa row (the whole database
is unchanged); the error is `Kelas not found` whenever the user_id check
that runs first passes (the first user with that id has role `siswa`). -/
theorem createSiswa_rejects_missing_kelas (db : DB) (now : Nat)
    (input : CreateSiswaInput) (h : ∀ k ∈ db.kelas, k.id ≠ input.kelas_id) :
    (∃ msg, (createSiswa db now input).1 = .error msg) ∧
    (createSiswa db now input).2 = db ∧
    ∀ u, (db.users.filter fun x => decide (x.id = input.user_id)).head? = some u →
      u.role = Role.siswa →
      (createSiswa db now input).1 = .error "Kelas not found" := by
  have hkelas : db.kelas.filter (fun k => decide (k.id = input.kelas_id)) = [] :=
    List.filter_eq_nil.mpr (fun k hk => by simpa using h k hk)
  cases hu : (db.users.filter fun x => decide (x.id = input.user_id)).head? with
  | none =>
    refine ⟨⟨"Invalid user_id or user is not a siswa", ?_⟩, ?_, ?_⟩ <;>
      simp [createSiswa, hu]
  | some u =>
    by_cases hrole : u.role = Role.siswa
    · refine ⟨⟨"Kelas not found", ?_⟩, ?_, ?_⟩ <;>
        simp [createSiswa, hu, hrole, hkelas]
    · refine ⟨⟨"Invalid user_id or user is not a siswa", ?_⟩, ?_, ?_⟩
      · simp [createSiswa, hu, hrole]
      · simp [createSiswa, hu, hrole]
      · intro v hv hvrole
        cases hv
        exact absurd hvrole hrole

/-- Witness for C5's amended theorem: `sampleDB` with `kelas_id = 99`. -/
theorem createSiswa_rejects_missing_kelas_witness :
    (createSiswa sampleDB 0 inputBadKelas).1 = .error "Kelas not found" ∧
    (createSiswa sampleDB 0 inputBadKelas).2 = sampleDB := by
  have h := createSiswa_rejects_missing_kelas sampleDB 0 inputBadKelas (by decide)
  exact ⟨h.2.2 sampleUserSiswa (by decide) rfl, h.2.1⟩

/-! ## C6 — creating a siswa with a duplicate NISN -/

def inputDupNisn : CreateSiswaInput :=
  { user_id := 3, nisn := "0012345678", nama := "Dodi", kelas_id := 2,
    foto := none }

def inputDupNisnBadUser : CreateSiswaInput :=
  { user_id := 77, nisn := "0012345678", nama := "Dodi", kelas_id := 2,
    foto := none }

/-- C6 (counterexample): with a siswa row carrying the input's NISN already
present but a `user_id` matching no user, `createSiswa` throws the earlier
check's error `Invalid user_id or user is not a siswa`, not
`NISN already exists`, so the claim's parenthesised error message does not
hold for every such call. -/
theorem createSiswa_duplicate_nisn_message_counterexample :
    (∃ s ∈ sampleDB.siswa, s.nisn = inputDupNisnBadUser.nisn) ∧
    (createSiswa sampleDB 0 inputDupNisnBadUser).1 =
      .error "Invalid user_id or user is not a siswa" ∧
    (createSiswa sampleDB 0 inputDupNisnBadUser).1 ≠
      .error "NISN already exists" := by
  refine ⟨⟨sampleSiswa, by decide, by decide⟩, by decide, by decide⟩

/-- C6 (amended): whenever a siswa row with the input's NISN exists,
`createSiswa` throws an error and inserts no second siswa row with that
NISN (the whole database is unchanged, so the count of rows with that NISN
stays the same); the error is `NISN already exists` whenever the user and
kelas checks that run first pass. -/
theorem createSiswa_rejects_duplicate_nisn (db : DB) (now : Nat)
    (input : CreateSiswaInput) (h : ∃ s ∈ db.siswa, s.nisn = input.nisn) :
    (∃ msg, (createSiswa db now input).1 = .error msg) ∧
    (createSiswa db now input).2 = db ∧
    (createSiswa db now input).2.siswa.countP
        (fun s => decide (s.nisn = input.nisn)) =
      db.siswa.countP (fun s => decide (s.nisn = input.nisn)) ∧
    ∀ u, (db.users.filter fun x => decide (x.id = input.user_id)).head? = some u →
      u.role = Role.siswa →
      (db.kelas.filter fun k => decide (k.id = input.kelas_id)).length ≠ 0 →
      (createSiswa db now input).1 = .error "NISN already exists" := by
  obtain ⟨s, hs, hn⟩ := h
  have hmem : s ∈ db.siswa.filter fun r => decide (r.nisn = input.nisn) :=
    List.mem_filter.mpr ⟨hs, by simp [hn]⟩
  have hpos : 0 < (db.siswa.filter fun r => decide (r.nisn = input.nisn)).length :=
    List.length_pos.mpr (List.ne_nil_of_mem hmem)
  cases hu : (db.users.filter fun x => decide (x.id = input.user_id)).head? with
  | none =>
    refine ⟨⟨"Invalid user_id or user is not a siswa", ?_⟩, ?_, ?_, ?_⟩ <;>
      simp [createSiswa, hu]
  | some u =>
    by_cases hrole : u.role = Role.siswa
    · by_cases hk : (db.kelas.filter fun k => decide (k.id = input.kelas_id)).length = 0
      · refine ⟨⟨"Kelas not found", ?_⟩, ?_, ?_, ?_⟩
        · simp [createSiswa, hu, hrole, hk]
        · simp [createSiswa, hu, hrole, hk]
        · simp [createSiswa, hu, hrole, hk]
        · intro v hv hvrole hvk
          exact absurd hk hvk
      · refine ⟨⟨"NISN already exists", ?_⟩, ?_, ?_, ?_⟩ <;>
          simp [createSiswa, hu, hrole, hk, hpos]
    · refine ⟨⟨"Invalid user_id or user is not a siswa", ?_⟩, ?_, ?_, ?_⟩
      · simp [createSiswa, hu, hrole]
      · simp [createSiswa, hu, hrole]
      · simp [createSiswa, hu, hrole]
      · intro v hv hvrole
        cases hv
        exact absurd hvrole hrole

/-- Witness for C6's amended theorem: `sampleDB` already holds NISN
`0012345678` and the user and kelas checks pass. -/
theorem createSiswa_rejects_duplicate_nisn_witness :
    (createSiswa sampleDB 0 inputDupNisn).1 = .error "NISN already exists" ∧
    (createSiswa sampleDB 0 inputDupNisn).2 = sampleDB := by
  have h := createSiswa_rejects_duplicate_nisn sampleDB 0 inputDupNisn
    ⟨sampleSiswa, by decide, by decide⟩
  exact ⟨h.2.2.2 sampleUserSiswa (by decide) rfl (by decide), h.2.1⟩

/-! ## C2 — `pengajuan_pending` in `getDashboardStats` -/

/-- C2: the handler returns `pengajuan_pending = 0` for every database state
— its pending-requests query is commented out ("temporarily disabled due to
schema enum issue") and replaced by the hardcoded `{ count: 0 }` — so on
`sampleDB`, which holds exactly one pending pengajuan-izin row, the returned
count 0 differs from the actual count 1 that the claim (and the disabled
query) specifies. -/
theorem getDashboardStats_pengajuan_pending_stub :
    (∀ (db : DB) (now : Nat), (getDashboardStats db now).pengajuan_pending = 0) ∧
    pendingCount sampleDB = 1 ∧
    (getDashboardStats sampleDB 0).pengajuan_pending ≠ pendingCount sampleDB := by
  refine ⟨fun db now => rfl, by decide, by decide⟩

/-! ## C3 — today's attendance counts in `getDashboardStats` -/

lemma length_filter_eq_zero_of_any_eq_false {α : Type} {p : α → Bool}
    {l : List α} (h : l.any p = false) : (l.filter p).length = 0 := by
  simp [List.filter_eq_nil_iff.mpr (List.any_eq_false.mp h)]

lemma applyStatusCounts_eval (rows : List AbsensiRow) :
    applyStatusCounts ⟨0, 0, 0, 0⟩ (groupByStatus rows) =
      { hadir := (rows.filter fun r => decide (r.status = AttendanceStatus.hadir)).length,
        izin := (rows.filter fun r => decide (r.status = AttendanceStatus.izin)).length,
        sakit := (rows.filter fun r => decide (r.status = AttendanceStatus.sakit)).length,
        alpha := (rows.filter fun r => decide (r.status = AttendanceStatus.alpha)).length } := by
  cases h1 : rows.any fun r => decide (r.status = AttendanceStatus.hadir) <;>
  cases h2 : rows.any fun r => decide (r.status = AttendanceStatus.izin) <;>
  cases h3 : rows.any fun r => decide (r.status = AttendanceStatus.sakit) <;>
  cases h4 : rows.any fun r => decide (r.status = AttendanceStatus.alpha) <;>
  simp [groupByStatus, allStatuses, applyStatusCounts, h1, h2, h3, h4,
    length_filter_eq_zero_of_any_eq_false]

def boundaryAbsensi : AbsensiRow :=
  { id := 20, siswa_id := 1, guru_id := none, kelas_id := 2,
    status := AttendanceStatus.hadir, tanggal := msPerDay,
    waktu_masuk := none, waktu_pulang := none, keterangan := none,
    created_at := 0, updated_at := 0 }

def boundaryDB : DB :=
  { users := [], siswa := [], guru := [], kelas := [],
    absensi := [boundaryAbsensi], pengajuan := [], nextId := 21 }

/-- C3 (counterexample): the handler's date filter is
`gte(tanggal, today)` and `lte(tanggal, tomorrow)` with `tomorrow` the NEXT
midnight, so an attendance row dated exactly at the next midnight (here
`tanggal = msPerDay` with `now = 0`) is counted in `hadir` although its
`tanggal` does not fall on the current day. -/
theorem getDashboardStats_counts_counterexample :
    (getDashboardStats boundaryDB 0).absensi_hari_ini.hadir = 1 ∧
    countStatusOnDay boundaryDB 0 AttendanceStatus.hadir = 0 := by
  refine ⟨by decide, by decide⟩

/-- C3 (amended): each field of `absensi_hari_ini` equals the number of
attendance rows with that status whose `tanggal` lies in the inclusive
window from today's midnight to the NEXT midnight (`lte`, not `lt`), i.e.
rows of the current day plus any row dated exactly at the next midnight. -/
theorem getDashboardStats_absensi_hari_ini (db : DB) (now : Nat) :
    (getDashboardStats db now).absensi_hari_ini.hadir =
      countStatusInWindow db now AttendanceStatus.hadir ∧
    (getDashboardStats db now).absensi_hari_ini.izin =
      countStatusInWindow db now AttendanceStatus.izin ∧
    (getDashboardStats db now).absensi_hari_ini.sakit =
      countStatusInWindow db now AttendanceStatus.sakit ∧
    (getDashboardStats db now).absensi_hari_ini.alpha =
      countStatusInWindow db now AttendanceStatus.alpha := by
  have key : ∀ s : AttendanceStatus,
      ((db.absensi.filter fun r =>
        decide (startOfDay now ≤ r.tanggal ∧
          r.tanggal ≤ startOfDay now + msPerDay)).filter
            fun r => decide (r.status = s)).length =
      countStatusInWindow db now s := by
    intro s
    unfold countStatusInWindow
    rw [List.filter_filter]
    congr 1
    apply List.filter_congr
    intro a _
    simp [Bool.decide_and]
  simp only [getDashboardStats, applyStatusCounts_eval]
  exact ⟨key AttendanceStatus.hadir, key AttendanceStatus.izin,
    key AttendanceStatus.sakit, key AttendanceStatus.alpha⟩

/-! ## C4 — approving / rejecting a pengajuan izin -/

lemma find?_map_of_pred_stable {α : Type} {pred : α → Bool} {f : α → α}
    (hf : ∀ a, pred (f a) = pred a) (l : List α) :
    (l.map f).find? pred = (l.find? pred).map f := by
  rw [List.find?_map]
  have : pred ∘ f = pred := funext hf
  rw [this]

/-- C4: reviewing an existing pengajuan izin (whose siswa row exists, as the
`INNER JOIN siswa` requires) succeeds and sets the request's status to the
review status; when approving, exactly one absensi row is appended for that
siswa — status `sakit` when the request's `jenis` is `sakit` and `izin` when
it is `izin`, dated with the request's `tanggal`, with `guru_id` the
reviewer's id and `keterangan` prefixed by `Approved: ` — and when
rejecting, the absensi table is unchanged. -/
theorem reviewPengajuanIzin_review_effects (db : DB) (now : Nat)
    (input : ReviewPengajuanIzinInput) (p : PengajuanRow) (s : SiswaRow)
    (hp : db.pengajuan.find? (fun q => decide (q.id = input.id)) = some p)
    (hs : db.siswa.find? (fun r => decide (r.id = p.siswa_id)) = some s) :
    (∃ ret, (reviewPengajuanIzin db now input).1 = Except.ok ret) ∧
    ((reviewPengajuanIzin db now input).2.pengajuan.find?
        fun q => decide (q.id = input.id)).map PengajuanRow.status
      = some (reqStatusOfReview input.status) ∧
    (input.status = ReviewStatus.approved →
      (reviewPengajuanIzin db now input).2.absensi = db.absensi ++
        [{ id := db.nextId, siswa_id := p.siswa_id,
           guru_id := some input.reviewer_id, kelas_id := s.kelas_id,
           status := if p.jenis = Jenis.sakit then AttendanceStatus.sakit
             else AttendanceStatus.izin,
           tanggal := p.tanggal, waktu_masuk := none, waktu_pulang := none,
           keterangan := some ("Approved: " ++ p.alasan),
           created_at := now, updated_at := now }]) ∧
    (input.status = ReviewStatus.rejected →
      (reviewPengajuanIzin db now input).2.absensi = db.absensi) := by
  have hpid : p.id = input.id := by simpa using List.find?_some hp
  have hhead : (db.pengajuan.filter fun q => decide (q.id = input.id)).head?
      = some p := by
    rw [head?_filter]; exact hp
  have hupd : ∀ q : PengajuanRow,
      (fun q : PengajuanRow => decide (q.id = input.id))
        ((fun q : PengajuanRow =>
          if q.id = input.id then
            { q with status := reqStatusOfReview input.status,
                     reviewer_id := some input.reviewer_id,
                     reviewed_at := some now, updated_at := now }
          else q) q) =
      (fun q : PengajuanRow => decide (q.id = input.id)) q := by
    intro q
    by_cases hq : q.id = input.id <;> simp [hq]
  have hfind2 : ((db.pengajuan.map fun q : PengajuanRow =>
      if q.id = input.id then
        { q with status := reqStatusOfReview input.status,
                 reviewer_id := some input.reviewer_id,
                 reviewed_at := some now, updated_at := now }
      else q).find? fun q => decide (q.id = input.id)).map PengajuanRow.status
      = some (reqStatusOfReview input.status) := by
    rw [find?_map_of_pred_stable hupd, hp]
    simp [hpid]
  cases hfl : db.pengajuan.filter fun q => decide (q.id = input.id) with
  | nil => rw [hfl] at hhead; simp at hhead
  | cons a t =>
    rw [hfl] at hhead
    simp only [List.head?_cons, Option.some.injEq] at hhead
    subst hhead
    have hjoined : ((db.pengajuan.filter fun q => decide (q.id = input.id)).filterMap
        fun q => (db.siswa.find? fun r => decide (r.id = q.siswa_id)).map
          fun r => (q, r)).head? = some (a, s) := by
      rw [hfl]
      simp [List.filterMap_cons, hs]
    simp only [reviewPengajuanIzin, hjoined]
    cases hst : input.status with
    | approved =>
      rw [if_pos rfl]
      rw [hst] at hfind2
      refine ⟨⟨_, rfl⟩, ?_, ?_, ?_⟩
      · simpa using hfind2
      · intro
        simp
      · intro hre
        cases hre
    | rejected =>
      rw [if_neg (by simp)]
      rw [hst] at hfind2
      refine ⟨⟨_, rfl⟩, ?_, ?_, ?_⟩
      · simpa using hfind2
      · intro hap
        cases hap
      · intro
        simp

/-- Witness for C4 at a concrete database: approving the pending `sakit`
request of `sampleDB`. -/
theorem reviewPengajuanIzin_review_effects_witness :
    (∃ ret, (reviewPengajuanIzin sampleDB 50
        { id := 5, status := ReviewStatus.approved, reviewer_id := 7 }).1
      = Except.ok ret) ∧
    ((reviewPengajuanIzin sampleDB 50
        { id := 5, status := ReviewStatus.approved, reviewer_id := 7 }).2.pengajuan.find?
          fun q => decide (q.id = 5)).map PengajuanRow.status
      = some RequestStatus.approved ∧
    (reviewPengajuanIzin sampleDB 50
        { id := 5, status := ReviewStatus.approved, reviewer_id := 7 }).2.absensi
      = sampleDB.absensi ++
        [{ id := 10, siswa_id := 1, guru_id := some 7, kelas_id := 2,
           status := AttendanceStatus.sakit, tanggal := 100,
           waktu_masuk := none, waktu_pulang := none,
           keterangan := some ("Approved: " ++ "demam"),
           created_at := 50, updated_at := 50 }] := by
  obtain ⟨hok, hstat, happ, -⟩ :=
    reviewPengajuanIzin_review_effects sampleDB 50
      { id := 5, status := ReviewStatus.approved, reviewer_id := 7 }
      samplePengajuan sampleSiswa (by decide) (by decide)
  refine ⟨hok, by simpa using hstat, ?_⟩
  have h2 := happ rfl
  simpa [sampleDB, samplePengajuan, sampleSiswa] using h2

/-! ## C9 — `absenMasuk` keeps at most one absensi row per siswa per day -/

/-- Number of absensi rows of siswa `sid` whose `tanggal` falls on calendar
day `d` (days counted from the epoch). -/
def countSiswaDay (db : DB) (sid d : Nat) : Nat :=
  db.absensi.countP fun r => decide (r.siswa_id = sid ∧ r.tanggal / msPerDay = d)

lemma sameDay_mem_window {t now : Nat} (h : t / msPerDay = now / msPerDay) :
    startOfDay now ≤ t ∧ t ≤ startOfDay now + msPerDay := by
  have h1 := Nat.div_add_mod t msPerDay
  have h2 := Nat.div_add_mod now msPerDay
  have h3 : t % msPerDay < msPerDay := Nat.mod_lt _ (by norm_num [msPerDay])
  unfold startOfDay msPerDay at *
  omega

lemma mem_of_head?_filter {α : Type} {p : α → Bool} {l : List α} {a : α}
    (h : (l.filter p).head? = some a) : a ∈ l ∧ p a = true := by
  have hmem : a ∈ l.filter p := by
    cases hfl : l.filter p with
    | nil => rw [hfl] at h; cases h
    | cons x t =>
      rw [hfl] at h
      simp only [List.head?_cons, Option.some.injEq] at h
      subst h
      exact List.mem_cons_self x t
  exact List.mem_filter.mp hmem

/-- C9: for an existing siswa, when an absensi row of that siswa dated today
already exists, `absenMasuk` inserts nothing — it updates the first row in
today's window with the check-in time and status `hadir`; a row is inserted
only when no today's row exists; and the at-most-one-row-per-siswa-per-day
invariant is preserved. -/
theorem absenMasuk_one_row_per_day (db : DB) (now : Nat) (siswaId : Nat)
    (s : SiswaRow)
    (hs : (db.siswa.filter fun r => decide (r.id = siswaId)).head? = some s) :
    ((∃ r ∈ db.absensi, r.siswa_id = siswaId ∧
        r.tanggal / msPerDay = now / msPerDay) →
      (absenMasuk db now siswaId).2.absensi.length = db.absensi.length ∧
      ∃ r₀ ∈ db.absensi, r₀.siswa_id = siswaId ∧
        startOfDay now ≤ r₀.tanggal ∧ r₀.tanggal ≤ startOfDay now + msPerDay ∧
        (absenMasuk db now siswaId).2.absensi = db.absensi.map fun r =>
          if r.id = r₀.id then
            { r with waktu_masuk := some (toTimeOfDay now),
                     status := AttendanceStatus.hadir, updated_at := now }
          else r) ∧
    (db.absensi.length < (absenMasuk db now siswaId).2.absensi.length →
      ∀ r ∈ db.absensi, r.siswa_id = siswaId →
        r.tanggal / msPerDay ≠ now / msPerDay) ∧
    (∀ sid d, countSiswaDay db sid d ≤ 1 →
      countSiswaDay (absenMasuk db now siswaId).2 sid d ≤ 1) := by
  cases hex : (db.absensi.filter fun r => decide (r.siswa_id = siswaId ∧
      startOfDay now ≤ r.tanggal ∧ r.tanggal ≤ startOfDay now + msPerDay)).head? with
  | some first =>
    obtain ⟨hfmem, hfpred⟩ := mem_of_head?_filter hex
    simp only [decide_eq_true_eq] at hfpred
    simp only [absenMasuk, hs, hex]
    refine ⟨?_, ?_, ?_⟩
    · intro _
      refine ⟨by simp, first, hfmem, hfpred.1, hfpred.2.1, hfpred.2.2, rfl⟩
    · intro hlt
      simp at hlt
    · intro sid d hle
      unfold countSiswaDay at *
      simp only [List.countP_map]
      calc List.countP ((fun r : AbsensiRow =>
              decide (r.siswa_id = sid ∧ r.tanggal / msPerDay = d)) ∘ fun r =>
              if r.id = first.id then
                { r with waktu_masuk := some (toTimeOfDay now),
                         status := AttendanceStatus.hadir, updated_at := now }
              else r) db.absensi
          = List.countP (fun r : AbsensiRow =>
              decide (r.siswa_id = sid ∧ r.tanggal / msPerDay = d)) db.absensi := by
            apply List.countP_congr
            intro r _
            by_cases hr : r.id = first.id <;> simp [hr]
        _ ≤ 1 := hle
  | none =>
    have hall : ∀ r ∈ db.absensi, ¬ (r.siswa_id = siswaId ∧
        startOfDay now ≤ r.tanggal ∧ r.tanggal ≤ startOfDay now + msPerDay) := by
      intro r hr
      have := List.filter_eq_nil_iff.mp (List.head?_eq_none_iff.mp hex) r hr
      simpa using this
    simp only [absenMasuk, hs, hex]
    refine ⟨?_, ?_, ?_⟩
    · intro hexists
      obtain ⟨r, hr, hsid, hday⟩ := hexists
      obtain ⟨hw1, hw2⟩ := sameDay_mem_window hday
      exact absurd ⟨hsid, hw1, hw2⟩ (hall r hr)
    · intro _
      intro r hr hsid hday
      obtain ⟨hw1, hw2⟩ := sameDay_mem_window hday
      exact absurd ⟨hsid, hw1, hw2⟩ (hall r hr)
    · intro sid d hle
      unfold countSiswaDay at *
      simp only [List.countP_append]
      by_cases hkey : siswaId = sid ∧ now / msPerDay = d
      · have hzero : List.countP (fun r : AbsensiRow =>
            decide (r.siswa_id = sid ∧ r.tanggal / msPerDay = d)) db.absensi = 0 := by
          rw [List.countP_eq_zero]
          intro r hr
          simp only [decide_eq_true_eq]
          intro hcon
          obtain ⟨hw1, hw2⟩ := sameDay_mem_window
            (show r.tanggal / msPerDay = now / msPerDay by
              rw [hcon.2, hkey.2])
          exact absurd ⟨by rw [hcon.1, ← hkey.1], hw1, hw2⟩ (hall r hr)
        rw [hzero]
        simp only [Nat.zero_add]
        exact le_trans (List.countP_le_length _) (by simp)
      · have hone : List.countP (fun r : AbsensiRow =>
            decide (r.siswa_id = sid ∧ r.tanggal / msPerDay = d))
            [{ id := db.nextId, siswa_id := siswaId, guru_id := none,
               kelas_id := s.kelas_id, status := AttendanceStatus.hadir,
               tanggal := now, waktu_masuk := some (toTimeOfDay now),
               waktu_pulang := none, keterangan := none,
               created_at := now, updated_at := now }] = 0 := by
          rw [List.countP_eq_zero]
          intro r hr
          simp only [List.mem_singleton] at hr
          subst hr
          simpa using hkey
        omega

def todayRow : AbsensiRow :=
  { id := 30, siswa_id := 1, guru_id := none, kelas_id := 2,
    status := AttendanceStatus.alpha, tanggal := 500,
    waktu_masuk := none, waktu_pulang := none, keterangan := none,
    created_at := 0, updated_at := 0 }

def absenDB : DB :=
  { users := [sampleUserSiswa, sampleUserGuru], siswa := [sampleSiswa],
    guru := [sampleGuru], kelas := [sampleKelas], absensi := [todayRow],
    pengajuan := [], nextId := 31 }

/-- Witness for C9: siswa 1 of `absenDB` already has a row dated today, so
`absenMasuk` leaves the row count unchanged, and the per-day invariant is
preserved. -/
theorem absenMasuk_one_row_per_day_witness :
    (absenMasuk absenDB 1000 1).2.absensi.length = absenDB.absensi.length ∧
    countSiswaDay (absenMasuk absenDB 1000 1).2 1 0 ≤ 1 := by
  have h := absenMasuk_one_row_per_day absenDB 1000 1 sampleSiswa (by decide)
  exact ⟨(h.1 ⟨todayRow, by decide, by decide, by decide⟩).1,
    h.2.2 1 0 (by decide)⟩

/-! ## C10 — `updateAbsensi` updates only the provided fields -/

lemma applyUpdateAbsensi_eq (now : Nat) (input : UpdateAbsensiInput)
    (r : AbsensiRow) :
    applyUpdateAbsensi now input r =
      { id := r.id, siswa_id := r.siswa_id, guru_id := r.guru_id,
        kelas_id := r.kelas_id, tanggal := r.tanggal,
        created_at := r.created_at,
        status := input.status.getD r.status,
        waktu_masuk := input.waktu_masuk.getD r.waktu_masuk,
        waktu_pulang := input.waktu_pulang.getD r.waktu_pulang,
        keterangan := input.keterangan.getD r.keterangan,
        updated_at := now } := by
  obtain ⟨i, st, wm, wp, kt⟩ := input
  cases st <;> cases wm <;> cases wp <;> cases kt <;> rfl

/-- C10: on an existing absensi row, `updateAbsensi` succeeds, leaves every
other table and the id counter unchanged, and rewrites the absensi table so
that rows with a different id are untouched while the matching rows keep
their `id`, `siswa_id`, `guru_id`, `kelas_id`, `tanggal` and `created_at`
and take the input's `status` / `waktu_masuk` / `waktu_pulang` /
`keterangan` exactly when those fields are present (`Option.getD`), with
`updated_at := now`. -/
theorem updateAbsensi_frame (db : DB) (now : Nat) (input : UpdateAbsensiInput)
    (r₀ : AbsensiRow)
    (h : db.absensi.find? (fun r => decide (r.id = input.id)) = some r₀) :
    (∃ out, (updateAbsensi db now input).1 = Except.ok out) ∧
    (updateAbsensi db now input).2.users = db.users ∧
    (updateAbsensi db now input).2.siswa = db.siswa ∧
    (updateAbsensi db now input).2.guru = db.guru ∧
    (updateAbsensi db now input).2.kelas = db.kelas ∧
    (updateAbsensi db now input).2.pengajuan = db.pengajuan ∧
    (updateAbsensi db now input).2.nextId = db.nextId ∧
    (updateAbsensi db now input).2.absensi = db.absensi.map fun r =>
      if r.id = input.id then
        { id := r.id, siswa_id := r.siswa_id, guru_id := r.guru_id,
          kelas_id := r.kelas_id, tanggal := r.tanggal,
          created_at := r.created_at,
          status := input.status.getD r.status,
          waktu_masuk := input.waktu_masuk.getD r.waktu_masuk,
          waktu_pulang := input.waktu_pulang.getD r.waktu_pulang,
          keterangan := input.keterangan.getD r.keterangan,
          updated_at := now }
      else r := by
  have hhead : (db.absensi.filter fun r => decide (r.id = input.id)).head?
      = some r₀ := by
    rw [head?_filter]; exact h
  simp only [updateAbsensi, hhead]
  refine ⟨⟨_, rfl⟩, trivial, trivial, trivial, trivial, trivial, trivial, ?_⟩
  apply List.map_congr_left
  intro r _
  by_cases hr : r.id = input.id <;> simp [hr, applyUpdateAbsensi_eq]

def updInput : UpdateAbsensiInput :=
  { id := 30, status := some AttendanceStatus.izin, waktu_masuk := none,
    waktu_pulang := none, keterangan := some none }

/-- Witness for C10: updating row 30 of `absenDB` with a provided `status`
and `keterangan` but absent `waktu_masuk` / `waktu_pulang`. -/
theorem updateAbsensi_frame_witness :
    (updateAbsensi absenDB 2000 updInput).2.siswa = absenDB.siswa ∧
    (updateAbsensi absenDB 2000 updInput).2.absensi =
      [{ id := 30, siswa_id := 1, guru_id := none, kelas_id := 2,
         status := AttendanceStatus.izin, tanggal := 500,
         waktu_masuk := none, waktu_pulang := none, keterangan := none,
         created_at := 0, updated_at := 2000 }] := by
  have h := updateAbsensi_frame absenDB 2000 updInput todayRow (by decide)
  refine ⟨h.2.2.1, ?_⟩
  rw [h.2.2.2.2.2.2.2]
  decide

/-! ## C8 — precondition checks run before any write -/

lemma not_exists_of_filter_len_zero {α : Type} {p : α → Bool} {l : List α}
    (h : (l.filter p).length = 0) : ¬ ∃ a ∈ l, p a = true := by
  rw [List.length_eq_zero, List.filter_eq_nil_iff] at h
  rintro ⟨a, ha, hp⟩
  exact h a ha hp

lemma exists_of_filter_len_ne_zero {α : Type} {p : α → Bool} {l : List α}
    (h : ¬ (l.filter p).length = 0) : ∃ a ∈ l, p a = true := by
  obtain ⟨a, ha⟩ := List.exists_mem_of_length_pos (Nat.pos_of_ne_zero h)
  exact ⟨a, (List.mem_filter.mp ha).1, (List.mem_filter.mp ha).2⟩

/-- The precondition failures `createAbsensi` checks for: missing siswa,
missing kelas, or a truthy-but-missing guru (the handler guards the guru
check with `if (input.guru_id)`, so it runs only for a non-null, nonzero
`guru_id`). -/
def createAbsensiViolation (db : DB) (input : CreateAbsensiInput) : Prop :=
  (¬ ∃ s ∈ db.siswa, s.id = input.siswa_id) ∨
  (¬ ∃ k ∈ db.kelas, k.id = input.kelas_id) ∨
  (∃ g, input.guru_id = some g ∧ g ≠ 0 ∧ ¬ ∃ r ∈ db.guru, r.id = g)

/-- The precondition failures `createGuru` checks for: missing user, user
whose role is not `guru`, an existing guru profile for the user, or a
duplicate NIP. -/
def createGuruViolation (db : DB) (input : CreateGuruInput) : Prop :=
  (¬ ∃ u ∈ db.users, u.id = input.user_id) ∨
  (∃ u, (db.users.filter fun x => decide (x.id = input.user_id)).head? = some u ∧
    u.role ≠ Role.guru) ∨
  (∃ g ∈ db.guru, g.user_id = input.user_id) ∨
  (∃ g ∈ db.guru, g.nip = input.nip)

/-- The precondition failure `createUser` checks for: a non-null
role-specific identifier already used by an existing user. -/
def createUserViolation (db : DB) (input : CreateUserInput) : Prop :=
  match input.role with
  | Role.admin => ∃ v, input.username = some v ∧ ∃ x ∈ db.users, x.username = some v
  | Role.guru => ∃ v, input.nip = some v ∧ ∃ x ∈ db.users, x.nip = some v
  | Role.siswa => ∃ v, input.nisn = some v ∧ ∃ x ∈ db.users, x.nisn = some v

lemma createAbsensi_error_iff (db : DB) (now : Nat) (ia : CreateAbsensiInput) :
    (∃ msg, (createAbsensi db now ia).1 = Except.error msg) ↔
      createAbsensiViolation db ia := by
  by_cases h1 : (db.siswa.filter fun s => decide (s.id = ia.siswa_id)).length = 0
  · refine iff_of_true ⟨"Siswa not found", by simp [createAbsensi, h1]⟩ (Or.inl ?_)
    have := not_exists_of_filter_len_zero h1
    simpa using this
  · by_cases h2 : (db.kelas.filter fun k => decide (k.id = ia.kelas_id)).length = 0
    · refine iff_of_true ⟨"Kelas not found", by simp [createAbsensi, h1, h2]⟩ (Or.inr (Or.inl ?_))
      have := not_exists_of_filter_len_zero h2
      simpa using this
    · have hsis : ∃ s ∈ db.siswa, s.id = ia.siswa_id := by
        simpa using exists_of_filter_len_ne_zero h1
      have hkel : ∃ k ∈ db.kelas, k.id = ia.kelas_id := by
        simpa using exists_of_filter_len_ne_zero h2
      cases hg : ia.guru_id with
      | none =>
        refine iff_of_false ?_ ?_
        · rintro ⟨msg, hmsg⟩
          simp [createAbsensi, h1, h2, hg] at hmsg
        · rintro (hv | hv | ⟨g, hgsome, -⟩)
          · exact hv hsis
          · exact hv hkel
          · rw [hg] at hgsome; cases hgsome
      | some g =>
        by_cases hgz : g = 0
        · refine iff_of_false ?_ ?_
          · rintro ⟨msg, hmsg⟩
            simp [createAbsensi, h1, h2, hg, hgz] at hmsg
          · rintro (hv | hv | ⟨g2, hgsome, hgnz, -⟩)
            · exact hv hsis
            · exact hv hkel
            · rw [hg] at hgsome
              cases hgsome
              exact hgnz hgz
        · by_cases h3 : (db.guru.filter fun r => decide (r.id = g)).length = 0
          · refine iff_of_true ⟨"Guru not found",
              by simp [createAbsensi, h1, h2, hg, hgz, h3]⟩
              (Or.inr (Or.inr ⟨g, hg, hgz, ?_⟩))
            have := not_exists_of_filter_len_zero h3
            simpa using this
          · refine iff_of_false ?_ ?_
            · rintro ⟨msg, hmsg⟩
              simp [createAbsensi, h1, h2, hg, hgz, h3] at hmsg
            · rintro (hv | hv | ⟨g2, hgsome, hgnz, hv⟩)
              · exact hv hsis
              · exact hv hkel
              · rw [hg] at hgsome
                cases hgsome
                exact hv (by simpa using exists_of_filter_len_ne_zero h3)

lemma createAbsensi_unchanged_of_error (db : DB) (now : Nat)
    (ia : CreateAbsensiInput) :
    ∀ msg, (createAbsensi db now ia).1 = Except.error msg →
      (createAbsensi db now ia).2 = db := by
  by_cases h1 : (db.siswa.filter fun s => decide (s.id = ia.siswa_id)).length = 0
  · intro msg _; simp [createAbsensi, h1]
  · by_cases h2 : (db.kelas.filter fun k => decide (k.id = ia.kelas_id)).length = 0
    · intro msg _; simp [createAbsensi, h1, h2]
    · cases hg : ia.guru_id with
      | none =>
        intro msg hmsg
        simp [createAbsensi, h1, h2, hg] at hmsg
      | some g =>
        by_cases hgz : g = 0
        · intro msg hmsg
          simp [createAbsensi, h1, h2, hg, hgz] at hmsg
        · by_cases h3 : (db.guru.filter fun r => decide (r.id = g)).length = 0
          · intro msg _; simp [createAbsensi, h1, h2, hg, hgz, h3]
          · intro msg hmsg
            simp [createAbsensi, h1, h2, hg, hgz, h3] at hmsg

lemma createGuru_error_iff (db : DB) (now : Nat) (ig : CreateGuruInput) :
    (∃ msg, (createGuru db now ig).1 = Except.error msg) ↔
      createGuruViolation db ig := by
  cases hu : (db.users.filter fun x => decide (x.id = ig.user_id)).head? with
  | none =>
    refine iff_of_true ⟨"User not found", by simp [createGuru, hu]⟩ (Or.inl ?_)
    have hnil := List.head?_eq_none_iff.mp hu
    have := not_exists_of_filter_len_zero (p := fun x : UserRow =>
      decide (x.id = ig.user_id)) (l := db.users) (by simp [hnil])
    simpa using this
  | some u =>
    have humem : u ∈ db.users ∧ u.id = ig.user_id := by
      have := mem_of_head?_filter hu
      simpa using this
    by_cases hrole : u.role = Role.guru
    · by_cases hprof : (db.guru.filter fun g => decide (g.user_id = ig.user_id)).length > 0
      · refine iff_of_true ⟨"Guru profile already exists for this user",
            by simp [createGuru, hu, hrole, hprof]⟩
          (Or.inr (Or.inr (Or.inl ?_)))
        simpa using exists_of_filter_len_ne_zero (Nat.pos_iff_ne_zero.mp hprof)
      · by_cases hnip : (db.guru.filter fun g => decide (g.nip = ig.nip)).length > 0
        · refine iff_of_true ⟨"NIP already exists",
              by simp [createGuru, hu, hrole, hprof, hnip]⟩
            (Or.inr (Or.inr (Or.inr ?_)))
          simpa using exists_of_filter_len_ne_zero (Nat.pos_iff_ne_zero.mp hnip)
        · refine iff_of_false ?_ ?_
          · rintro ⟨msg, hmsg⟩
            simp [createGuru, hu, hrole, hprof, hnip] at hmsg
          · rintro (hv | ⟨u2, hu2, hv⟩ | hv | hv)
            · exact hv ⟨u, humem⟩
            · rw [hu] at hu2
              cases hu2
              exact hv hrole
            · refine absurd ?_ hprof
              obtain ⟨g, hgmem, hgid⟩ := hv
              refine Nat.pos_iff_ne_zero.mpr fun hz => ?_
              exact not_exists_of_filter_len_zero hz ⟨g, hgmem, by simp [hgid]⟩
            · refine absurd ?_ hnip
              obtain ⟨g, hgmem, hgid⟩ := hv
              refine Nat.pos_iff_ne_zero.mpr fun hz => ?_
              exact not_exists_of_filter_len_zero hz ⟨g, hgmem, by simp [hgid]⟩
    · refine iff_of_true ⟨"User must have guru role", by simp [createGuru, hu, hrole]⟩
        (Or.inr (Or.inl ⟨u, hu, hrole⟩))

lemma createGuru_unchanged_of_error (db : DB) (now : Nat)
    (ig : CreateGuruInput) :
    ∀ msg, (createGuru db now ig).1 = Except.error msg →
      (createGuru db now ig).2 = db := by
  cases hu : (db.users.filter fun x => decide (x.id = ig.user_id)).head? with
  | none => intro msg _; simp [createGuru, hu]
  | some u =>
    by_cases hrole : u.role = Role.guru
    · by_cases hprof : (db.guru.filter fun g => decide (g.user_id = ig.user_id)).length > 0
      · intro msg _; simp [createGuru, hu, hrole, hprof]
      · by_cases hnip : (db.guru.filter fun g => decide (g.nip = ig.nip)).length > 0
        · intro msg _; simp [createGuru, hu, hrole, hprof, hnip]
        · intro msg hmsg
          simp [createGuru, hu, hrole, hprof, hnip] at hmsg
    · intro msg _; simp [createGuru, hu, hrole]

lemma createUser_error_iff (db : DB) (now : Nat) (iu : CreateUserInput)
    (saltHex pbkdf2Hex : String) :
    (∃ msg, (createUser db now iu saltHex pbkdf2Hex).1 = Except.error msg) ↔
      createUserViolation db iu := by
  cases hrole : iu.role with
  | admin =>
    cases hname : iu.username with
    | none =>
      refine iff_of_false ?_ ?_
      · rintro ⟨msg, hmsg⟩
        simp [createUser, hrole, hname] at hmsg
      · simp only [createUserViolation, hrole]
        rintro ⟨v, hv, -⟩
        rw [hname] at hv
        cases hv
    | some v =>
      cases hc : (db.users.filter fun x => decide (x.username = some v)).head? with
      | none =>
        refine iff_of_false ?_ ?_
        · rintro ⟨msg, hmsg⟩
          simp [createUser, hrole, hname, hc] at hmsg
        · simp only [createUserViolation, hrole]
          rintro ⟨v2, hv2, hex⟩
          rw [hname] at hv2
          cases hv2
          have hnil := List.head?_eq_none_iff.mp hc
          exact not_exists_of_filter_len_zero (p := fun x : UserRow =>
              decide (x.username = some v)) (l := db.users)
            (by simp [hnil]) (by simpa using hex)
      | some e =>
        refine iff_of_true ⟨_, by
          simp only [createUser, hrole, hname, hc]
          rfl⟩ ?_
        simp only [createUserViolation, hrole]
        obtain ⟨hemem, hepred⟩ := mem_of_head?_filter hc
        exact ⟨v, hname, e, hemem, by simpa using hepred⟩
  | guru =>
    cases hname : iu.nip with
    | none =>
      refine iff_of_false ?_ ?_
      · rintro ⟨msg, hmsg⟩
        simp [createUser, hrole, hname] at hmsg
      · simp only [createUserViolation, hrole]
        rintro ⟨v, hv, -⟩
        rw [hname] at hv
        cases hv
    | some v =>
      cases hc : (db.users.filter fun x => decide (x.nip = some v)).head? with
      | none =>
        refine iff_of_false ?_ ?_
        · rintro ⟨msg, hmsg⟩
          simp [createUser, hrole, hname, hc] at hmsg
        · simp only [createUserViolation, hrole]
          rintro ⟨v2, hv2, hex⟩
          rw [hname] at hv2
          cases hv2
          have hnil := List.head?_eq_none_iff.mp hc
          exact not_exists_of_filter_len_zero (p := fun x : UserRow =>
              decide (x.nip = some v)) (l := db.users)
            (by simp [hnil]) (by simpa using hex)
      | some e =>
        refine iff_of_true ⟨_, by
          simp only [createUser, hrole, hname, hc]
          rfl⟩ ?_
        simp only [createUserViolation, hrole]
        obtain ⟨hemem, hepred⟩ := mem_of_head?_filter hc
        exact ⟨v, hname, e, hemem, by simpa using hepred⟩
  | siswa =>
    cases hname : iu.nisn with
    | none =>
      refine iff_of_false ?_ ?_
      · rintro ⟨msg, hmsg⟩
        simp [createUser, hrole, hname] at hmsg
      · simp only [createUserViolation, hrole]
        rintro ⟨v, hv, -⟩
        rw [hname] at hv
        cases hv
    | some v =>
      cases hc : (db.users.filter fun x => decide (x.nisn = some v)).head? with
      | none =>
        refine iff_of_false ?_ ?_
        · rintro ⟨msg, hmsg⟩
          simp [createUser, hrole, hname, hc] at hmsg
        · simp only [createUserViolation, hrole]
          rintro ⟨v2, hv2, hex⟩
          rw [hname] at hv2
          cases hv2
          have hnil := List.head?_eq_none_iff.mp hc
          exact not_exists_of_filter_len_zero (p := fun x : UserRow =>
              decide (x.nisn = some v)) (l := db.users)
            (by simp [hnil]) (by simpa using hex)
      | some e =>
        refine iff_of_true ⟨_, by
          simp only [createUser, hrole, hname, hc]
          rfl⟩ ?_
        simp only [createUserViolation, hrole]
        obtain ⟨hemem, hepred⟩ := mem_of_head?_filter hc
        exact ⟨v, hname, e, hemem, by simpa using hepred⟩

lemma createUser_unchanged_of_error (db : DB) (now : Nat)
    (iu : CreateUserInput) (saltHex pbkdf2Hex : String) :
    ∀ msg, (createUser db now iu saltHex pbkdf2Hex).1 = Except.error msg →
      (createUser db now iu saltHex pbkdf2Hex).2 = db := by
  cases hrole : iu.role with
  | admin =>
    cases hname : iu.username with
    | none =>
      intro msg hmsg
      simp [createUser, hrole, hname] at hmsg
    | some v =>
      cases hc : (db.users.filter fun x => decide (x.username = some v)).head? with
      | none =>
        intro msg hmsg
        simp [createUser, hrole, hname, hc] at hmsg
      | some e => intro msg _; simp [createUser, hrole, hname, hc]
  | guru =>
    cases hname : iu.nip with
    | none =>
      intro msg hmsg
      simp [createUser, hrole, hname] at hmsg
    | some v =>
      cases hc : (db.users.filter fun x => decide (x.nip = some v)).head? with
      | none =>
        intro msg hmsg
        simp [createUser, hrole, hname, hc] at hmsg
      | some e => intro msg _; simp [createUser, hrole, hname, hc]
  | siswa =>
    cases hname : iu.nisn with
    | none =>
      intro msg hmsg
      simp [createUser, hrole, hname] at hmsg
    | some v =>
      cases hc : (db.users.filter fun x => decide (x.nisn = some v)).head? with
      | none =>
        intro msg hmsg
        simp [createUser, hrole, hname, hc] at hmsg
      | some e => intro msg _; simp [createUser, hrole, hname, hc]

/-- C8: for `createAbsensi`, `createGuru` and `createUser`, an error is
thrown exactly when one of the handler's preconditions is violated (entity
missing, role mismatch, uniqueness broken; `createAbsensi`'s guru check runs
only for a truthy — non-null, nonzero — `guru_id`, per `if (input.guru_id)`),
and whenever an error is thrown the database state is unchanged — every
precondition check runs before the insert. -/
theorem handlers_error_iff_violation_and_no_write (db : DB) (now : Nat)
    (ia : CreateAbsensiInput) (ig : CreateGuruInput) (iu : CreateUserInput)
    (saltHex pbkdf2Hex : String) :
    ((∃ msg, (createAbsensi db now ia).1 = Except.error msg) ↔
      createAbsensiViolation db ia) ∧
    (∀ msg, (createAbsensi db now ia).1 = Except.error msg →
      (createAbsensi db now ia).2 = db) ∧
    ((∃ msg, (createGuru db now ig).1 = Except.error msg) ↔
      createGuruViolation db ig) ∧
    (∀ msg, (createGuru db now ig).1 = Except.error msg →
      (createGuru db now ig).2 = db) ∧
    ((∃ msg, (createUser db now iu saltHex pbkdf2Hex).1 = Except.error msg) ↔
      createUserViolation db iu) ∧
    (∀ msg, (createUser db now iu saltHex pbkdf2Hex).1 = Except.error msg →
      (createUser db now iu saltHex pbkdf2Hex).2 = db) :=
  ⟨createAbsensi_error_iff db now ia, createAbsensi_unchanged_of_error db now ia,
   createGuru_error_iff db now ig, createGuru_unchanged_of_error db now ig,
   createUser_error_iff db now iu saltHex pbkdf2Hex,
   createUser_unchanged_of_error db now iu saltHex pbkdf2Hex⟩

def caBadInput : CreateAbsensiInput :=
  { siswa_id := 42, guru_id := none, kelas_id := 2,
    status := AttendanceStatus.hadir, tanggal := 0, waktu_masuk := none,
    waktu_pulang := none, keterangan := none }

def cgBadInput : CreateGuruInput :=
  { user_id := 3, nip := "123", nama := "X", foto := none }

def cuBadInput : CreateUserInput :=
  { username := none, nip := none, nisn := some "0012345678",
    password := "pw", role := Role.siswa }

/-- Witness for C8 on `sampleDB`: a `createAbsensi` call with an unknown
siswa, a `createGuru` call whose user has role `siswa`, and a `createUser`
call with a duplicate NISN each throw, and each leaves the state
unchanged. -/
theorem handlers_error_iff_violation_and_no_write_witness :
    ((∃ msg, (createAbsensi sampleDB 0 caBadInput).1 = Except.error msg) ∧
      (createAbsensi sampleDB 0 caBadInput).2 = sampleDB) ∧
    ((∃ msg, (createGuru sampleDB 0 cgBadInput).1 = Except.error msg) ∧
      (createGuru sampleDB 0 cgBadInput).2 = sampleDB) ∧
    ((∃ msg, (createUser sampleDB 0 cuBadInput saltSample pbkdf2Sample).1 =
        Except.error msg) ∧
      (createUser sampleDB 0 cuBadInput saltSample pbkdf2Sample).2 = sampleDB) := by
  have h := handlers_error_iff_violation_and_no_write sampleDB 0 caBadInput
    cgBadInput cuBadInput saltSample pbkdf2Sample
  obtain ⟨m1, hm1⟩ := h.1.mpr (Or.inl (by decide))
  obtain ⟨m2, hm2⟩ := h.2.2.1.mpr
    (Or.inr (Or.inl ⟨sampleUserSiswa, by decide, by decide⟩))
  obtain ⟨m3, hm3⟩ := h.2.2.2.2.1.mpr
    ⟨"0012345678", rfl, sampleUserSiswa, by decide, by decide⟩
  exact ⟨⟨⟨m1, hm1⟩, h.2.1 m1 hm1⟩, ⟨⟨m2, hm2⟩, h.2.2.2.1 m2 hm2⟩,
    ⟨⟨m3, hm3⟩, h.2.2.2.2.2 m3 hm3⟩⟩

end Absenku
